import Mathlib

/-!
Shallow embedding of `src/src/components/editor.tsx`: the `Editor` React
component wrapping a Quill rich-text widget.  Pure parts (the JSX tree
returned by a render) become Lean functions; the stateful parts (the
`useRef` cells, the `useLayoutEffect` value sync, the mount-time
`useEffect` and its cleanup) become explicit state passing.  React
semantics used by the embedding: a layout effect with no dependency array
runs after every render (before paint); an effect with a dependency array
re-runs only when the array's entries change between renders.
-/

namespace Editor

/-- A Quill content operation (`Op` from `quill/core`), reduced to the
constructors the component's `defaultValue` values can carry. -/
inductive Op where
  | insert : String → Op
  | delete : Nat → Op
  | retain : Nat → Op
deriving DecidableEq, Repr

/-- A Quill `Delta`: a wrapper around a list of ops. -/
structure Delta where
  ops : List Op
deriving DecidableEq, Repr

/-- The type of the `defaultValue` prop: `Delta | Op[]`. -/
inductive DefaultValueT where
  | delta : Delta → DefaultValueT
  | opList : List Op → DefaultValueT
deriving DecidableEq, Repr

/-- The variant prop: `"create" | "update"`. -/
inductive Variant where
  | create
  | update
deriving DecidableEq, Repr

/-- The props as the caller supplies them (optional fields not yet
defaulted), `interface EditorProps`.  `σ` is the opaque type of the
`onSubmit` callback, `κ` of `onCancel`; the `innerRef` cell is carried as
a presence marker (its contents live in `MountState`). -/
structure EditorPropsIn (σ κ : Type) where
  onSubmit : σ
  onCancel : Option κ
  placeholder : Option String
  defaultValue : Option DefaultValueT
  disabled : Option Bool
  innerRef : Option Unit
  variant : Option Variant
deriving DecidableEq, Repr

/-- The props after the destructuring defaults of `const Editor = ({...})`
are applied. -/
structure EditorProps (σ κ : Type) where
  onSubmit : σ
  onCancel : Option κ
  placeholder : String
  defaultValue : DefaultValueT
  disabled : Bool
  innerRef : Option Unit
  variant : Variant
deriving DecidableEq, Repr

/-- Default resolution performed by the destructuring pattern:
`placeholder = "Write something..."`, `defaultValue = []`,
`disabled = false`, `variant = "create"`. -/
def resolveProps {σ κ : Type} (p : EditorPropsIn σ κ) : EditorProps σ κ :=
  { onSubmit := p.onSubmit
    onCancel := p.onCancel
    placeholder := p.placeholder.getD "Write something..."
    defaultValue := p.defaultValue.getD (DefaultValueT.opList [])
    disabled := p.disabled.getD false
    innerRef := p.innerRef
    variant := p.variant.getD Variant.create }

/-- The code of an `onClick` handler.  The only handler expression
occurring in the component is the empty arrow function, modelled by
`inert`. -/
inductive HandlerCode where
  | inert
deriving DecidableEq, Repr

/-- The icon or text content of a rendered `Button`. -/
inductive BtnContent where
  | iconTextAa
  | iconSmile
  | iconImage
  | iconSend
  | textLabel : String → BtnContent
deriving DecidableEq, Repr

/-- The attributes passed to one `Button` element in the JSX. -/
structure RenderedButton where
  disabled : Bool
  size : String
  bvariant : Option String
  cls : Option String
  onClick : HandlerCode
  content : BtnContent
deriving DecidableEq, Repr

/-- `<Button disabled={false} size="icon-sm" variant="ghost" onClick={...}><PiTextAa/></Button>` -/
def formatButton : RenderedButton :=
  { disabled := false, size := "icon-sm", bvariant := some "ghost"
    cls := none, onClick := HandlerCode.inert, content := BtnContent.iconTextAa }

/-- The emoji button (`<Smile/>` icon). -/
def emojiButton : RenderedButton :=
  { disabled := false, size := "icon-sm", bvariant := some "ghost"
    cls := none, onClick := HandlerCode.inert, content := BtnContent.iconSmile }

/-- The attach-image button (`<ImageIcon/>` icon), rendered only for the
create variant. -/
def imageButton : RenderedButton :=
  { disabled := false, size := "icon-sm", bvariant := some "ghost"
    cls := none, onClick := HandlerCode.inert, content := BtnContent.iconImage }

/-- The `Cancel` button, rendered only for the update variant. -/
def cancelButton : RenderedButton :=
  { disabled := false, size := "sm", bvariant := some "outline"
    cls := none, onClick := HandlerCode.inert, content := BtnContent.textLabel "Cancel" }

/-- The `Save` button, rendered only for the update variant. -/
def saveButton : RenderedButton :=
  { disabled := false, size := "sm", bvariant := none
    cls := some "bg-[#007a5a] hover:bg-[007a5a]/80 text-white"
    onClick := HandlerCode.inert, content := BtnContent.textLabel "Save" }

/-- The send button (`<MdSend/>` icon), rendered only for the create
variant. -/
def sendButton : RenderedButton :=
  { disabled := false, size := "icon-sm", bvariant := none
    cls := some "ml-auto bg-[#007a5a] hover:bg-[007a5a]/80 text-white"
    onClick := HandlerCode.inert, content := BtnContent.iconSend }

/-- A node of the rendered element tree. -/
inductive Node where
  | div : String → List Node → Node
  | refDiv : String → Node
  | hint : String → Node → Node
  | btn : RenderedButton → Node
  | para : List Node → Node
  | strongText : String → Node
  | text : String → Node

/-- The action-button row: the part of the JSX that depends on `variant`.
A JSX conditional `variant === x && e` contributes `e` when the guard
holds and nothing otherwise. -/
def actionButtons (variant : Variant) : List Node :=
  [ Node.hint "Hide formatting" (Node.btn formatButton),
    Node.hint "Emoji" (Node.btn emojiButton) ]
  ++ (if variant = Variant.create then [Node.hint "Image" (Node.btn imageButton)] else [])
  ++ (if variant = Variant.update then
        [Node.div "ml-auto flex items-center gap-x-2"
          [Node.btn cancelButton, Node.btn saveButton]] else [])
  ++ (if variant = Variant.create then [Node.btn sendButton] else [])

/-- The element tree returned by one render of `Editor`, translated from
the component's `return (...)` expression. -/
def render {σ κ : Type} (p : EditorProps σ κ) : Node :=
  Node.div "flex flex-col"
    [ Node.div "flex flex-col border border-slate-200 rounded-md overflow-hidden focus-within:border-slate-300 focus-within:shadow-sm transition bg-white"
        [ Node.refDiv "h-full ql-custom",
          Node.div "flex px-2 pb-2 z-5" (actionButtons p.variant) ],
      Node.div "p-2 text-[10px] text-muted-foreground flex justify-end"
        [ Node.para [Node.strongText "Shift + Return", Node.text " to add a new line"] ] ]

mutual

/-- All `Button` elements occurring in a node, in document order. -/
def buttonsOf : Node → List RenderedButton
  | Node.div _ cs => buttonsOfList cs
  | Node.refDiv _ => []
  | Node.hint _ n => buttonsOf n
  | Node.btn b => [b]
  | Node.para cs => buttonsOfList cs
  | Node.strongText _ => []
  | Node.text _ => []

/-- All `Button` elements occurring in a list of nodes. -/
def buttonsOfList : List Node → List RenderedButton
  | [] => []
  | n :: ns => buttonsOf n ++ buttonsOfList ns

end

/-- Whether the tree contains a button with the given content. -/
def hasButton (n : Node) (c : BtnContent) : Bool :=
  (buttonsOf n).any (fun b => decide (b.content = c))

/-- The four latest-value `useRef` cells (`submitRef`, `placeholderRef`,
`defaultValueRef`, `disabledRef`). -/
structure RefsState (σ : Type) where
  submitRef : σ
  placeholderRef : String
  defaultValueRef : DefaultValueT
  disabledRef : Bool
deriving DecidableEq, Repr

/-- The body of the `useLayoutEffect`: copy the current props into the
four cells.  Having no dependency array, it runs after every render,
before paint. -/
def syncRefs {σ κ : Type} (p : EditorProps σ κ) (_r : RefsState σ) : RefsState σ :=
  { submitRef := p.onSubmit
    placeholderRef := p.placeholder
    defaultValueRef := p.defaultValue
    disabledRef := p.disabled }

/-- Refs state after a sequence of renders, each followed by its layout
effect. -/
def processRenders {σ κ : Type} (ps : List (EditorProps σ κ)) (r0 : RefsState σ) : RefsState σ :=
  ps.foldl (fun r p => syncRefs p r) r0

/-- The options object built in the mount effect.  The Quill constructor
options carry no initial content; the only field the component sets is
`theme`. -/
structure QuillOptions where
  theme : Option String := none
  placeholder : Option String := none
deriving DecidableEq, Repr

/-- A live Quill widget instance.  The constructor records the options it
was given and starts with an empty document. -/
structure QuillInstance where
  options : QuillOptions
  contents : List Op
deriving DecidableEq, Repr

/-- `new Quill(el, options)`: a fresh instance with empty contents. -/
def quillNew (opts : QuillOptions) : QuillInstance :=
  { options := opts, contents := [] }

/-- A post-construction call on the widget instance (the collaborator API
surface the component could use to seed or drive the widget). -/
inductive WidgetCall where
  | setContents : DefaultValueT → WidgetCall
  | focus : WidgetCall
deriving DecidableEq, Repr

/-- A child appended to the container element; the component only ever
creates `div` elements. -/
inductive DomChild where
  | div
deriving DecidableEq, Repr

/-- The container `<div ref={containerRef}>` as a DOM element: its class
attribute and its current children. -/
structure DomContainer where
  className : String
  children : List DomChild
deriving DecidableEq, Repr

/-- The component state the mount effect can touch: the container element
behind `containerRef` (none while unattached), the internal `quillRef`
cell, and the caller-supplied `innerRef` cell when present (holding its
current `Quill | null` value). -/
structure MountState where
  containerEl : Option DomContainer
  quillRef : Option QuillInstance
  innerRef : Option (Option QuillInstance)
deriving DecidableEq, Repr

/-- The cleanup returned by the mount effect: `container.innerHTML = ""`
removes every child of the container and touches nothing else. -/
def creationCleanup (c : DomContainer) : DomContainer :=
  { c with children := [] }

/-- What one run of the mount-time `useEffect` produced. -/
structure MountResult where
  state : MountState
  widgetsCreated : List QuillInstance
  widgetCalls : List WidgetCall
  cleanup : Option (DomContainer → DomContainer)
  errorsThrown : List String

/-- The mount-time `useEffect` body.  It may read any of the latest-value
cells through `refs` but in fact reads none; with a null container it
returns early, otherwise it appends one fresh `div` child and constructs
one Quill instance with `{ theme: "snow" }`, discarding the instance and
registering the innerHTML-clearing cleanup. -/
def creationEffect {σ : Type} (_refs : RefsState σ) (ms : MountState) : MountResult :=
  match ms.containerEl with
  | none =>
      { state := ms, widgetsCreated := [], widgetCalls := []
        cleanup := none, errorsThrown := [] }
  | some container =>
      let container1 : DomContainer :=
        { container with children := container.children ++ [DomChild.div] }
      let options : QuillOptions := { theme := some "snow" }
      let _q : QuillInstance := quillNew options
      { state := { ms with containerEl := some container1 }
        widgetsCreated := [quillNew options]
        widgetCalls := []
        cleanup := some creationCleanup
        errorsThrown := [] }

/-- Whether a mount seeded the widget with a given value: the only way to
seed content is a `setContents` call after construction (the constructor
options carry no content field). -/
def seededWith (r : MountResult) (v : DefaultValueT) : Prop :=
  WidgetCall.setContents v ∈ r.widgetCalls

instance (r : MountResult) (v : DefaultValueT) : Decidable (seededWith r v) := by
  unfold seededWith; infer_instance

/-- Number of changes between consecutive dependency arrays, starting
from `prev`. -/
def countChanges {δ : Type} [DecidableEq δ] (prev : List δ) : List (List δ) → Nat
  | [] => 0
  | d :: rest => (if d = prev then 0 else 1) + countChanges d rest

/-- React's rule for an effect with a dependency array: it runs after the
first render, and after a later render exactly when its array changed. -/
def effectRunCount {δ : Type} [DecidableEq δ] : List (List δ) → Nat
  | [] => 0
  | d :: rest => 1 + countChanges d rest

/-- The dependency array of the creation effect is the literal `[]`,
whatever the props of the render are. -/
def creationEffectDeps {σ κ : Type} (_p : EditorProps σ κ) : List Unit := []

/-- An emitted callback invocation a handler could make. -/
inductive CallbackInvocation where
  | submit
  | cancelCb
deriving DecidableEq, Repr

/-- An error a handler could raise. -/
structure HandlerError where
  message : String
deriving DecidableEq, Repr

/-- The whole mutable state of a mounted component instance. -/
structure ComponentState (σ : Type) where
  refs : RefsState σ
  mount : MountState
deriving DecidableEq, Repr

/-- Run one `onClick` handler: the empty arrow function `inert` changes
no state, invokes no callback, and throws nothing. -/
def runHandler {σ : Type} (h : HandlerCode) (s : ComponentState σ) :
    Except HandlerError (ComponentState σ × List CallbackInvocation) :=
  match h with
  | HandlerCode.inert => Except.ok (s, [])

/-- Run a sequence of clicks, threading state and accumulating emitted
callback invocations. -/
def runClicks {σ : Type} : List HandlerCode → ComponentState σ →
    Except HandlerError (ComponentState σ × List CallbackInvocation)
  | [], s => Except.ok (s, [])
  | h :: rest, s =>
      match runHandler h s with
      | Except.error e => Except.error e
      | Except.ok (s1, invs) =>
          match runClicks rest s1 with
          | Except.error e => Except.error e
          | Except.ok (s2, invs2) => Except.ok (s2, invs ++ invs2)

/-- The creation effect's dependency array never changes between renders,
so no re-render ever re-triggers it. -/
theorem countChanges_creation_deps {σ κ : Type} (rest : List (EditorProps σ κ)) :
    countChanges ([] : List Unit) (rest.map creationEffectDeps) = 0 := by
  induction rest with
  | nil => rfl
  | cons q qs ih => simp [countChanges, creationEffectDeps, ih]

/-- C1: the cancel and save buttons are rendered exactly when `variant`
is `"update"`, the send and attach-image buttons exactly when it is
`"create"`, and the formatting-toggle and emoji buttons on every render,
for all values of the remaining props. -/
theorem variant_button_presence {σ κ : Type} (p : EditorProps σ κ) :
    hasButton (render p) (BtnContent.textLabel "Cancel") = decide (p.variant = Variant.update) ∧
    hasButton (render p) (BtnContent.textLabel "Save") = decide (p.variant = Variant.update) ∧
    hasButton (render p) BtnContent.iconSend = decide (p.variant = Variant.create) ∧
    hasButton (render p) BtnContent.iconImage = decide (p.variant = Variant.create) ∧
    hasButton (render p) BtnContent.iconTextAa = true ∧
    hasButton (render p) BtnContent.iconSmile = true := by
  obtain ⟨os, oc, ph, dv, di, ir, v⟩ := p
  cases v <;> exact ⟨rfl, rfl, rfl, rfl, rfl, rfl⟩

/-- C2 counterexample: mounting with `defaultValue = [insert "hello"]`
creates a widget but issues no content-seeding call at all, so the
widget is not seeded with the supplied default value. -/
theorem mount_does_not_seed_defaultValue :
    ¬ seededWith
        (creationEffect
          (syncRefs
            (⟨0, none, "Write something...",
              DefaultValueT.opList [Op.insert "hello"], false, none,
              Variant.create⟩ : EditorProps Nat Nat)
            ⟨0, "Write something...", DefaultValueT.opList [], false⟩)
          ⟨some ⟨"h-full ql-custom", []⟩, none, none⟩)
        (DefaultValueT.opList [Op.insert "hello"]) ∧
    (creationEffect
        (syncRefs
          (⟨0, none, "Write something...",
            DefaultValueT.opList [Op.insert "hello"], false, none,
            Variant.create⟩ : EditorProps Nat Nat)
          ⟨0, "Write something...", DefaultValueT.opList [], false⟩)
        ⟨some ⟨"h-full ql-custom", []⟩, none, none⟩).widgetsCreated ≠ [] := by
  decide

/-- C2 amended: every render captures `defaultValue` into the
`defaultValueRef` cell, but the mount-time effect never applies it to
the widget: it issues no widget call and its result does not depend on
the cells at all, so neither the mount-time value nor any later value of
`defaultValue` ever reaches the widget. -/
theorem defaultValue_captured_but_never_applied {σ κ : Type}
    (p : EditorProps σ κ) (r r' : RefsState σ) (ms : MountState) :
    (syncRefs p r).defaultValueRef = p.defaultValue ∧
    (creationEffect (syncRefs p r) ms).widgetCalls = [] ∧
    creationEffect (syncRefs p r) ms = creationEffect r' ms := by
  obtain ⟨ce, qr, ir⟩ := ms
  cases ce <;> exact ⟨rfl, rfl, rfl⟩

/-- C3 counterexample: mounting with a supplied `innerRef` cell (holding
null) creates a widget, yet afterwards the cell still holds null — the
created instance is discarded, not stored. -/
theorem mount_leaves_innerRef_empty :
    (creationEffect (⟨0, "Write something...", DefaultValueT.opList [], false⟩ : RefsState Nat)
        ⟨some ⟨"h-full ql-custom", []⟩, none, some none⟩).state.innerRef = some none ∧
    (creationEffect (⟨0, "Write something...", DefaultValueT.opList [], false⟩ : RefsState Nat)
        ⟨some ⟨"h-full ql-custom", []⟩, none, some none⟩).widgetsCreated =
      [quillNew { theme := some "snow" }] := by
  decide

/-- C3 amended: the wrapper accepts the `innerRef` cell but never writes
the widget instance it creates into it (nor into its own `quillRef`):
the mount effect leaves both cells exactly as they were, so the parent
obtains no reference to the instance. -/
theorem innerRef_and_quillRef_never_written {σ : Type}
    (refs : RefsState σ) (ms : MountState) :
    (creationEffect refs ms).state.innerRef = ms.innerRef ∧
    (creationEffect refs ms).state.quillRef = ms.quillRef := by
  obtain ⟨ce, qr, ir⟩ := ms
  cases ce <;> exact ⟨rfl, rfl⟩

/-- C4: with the container attached, the mount effect appends exactly one
child element and constructs exactly one widget with theme `"snow"`; and
since its dependency array is the literal `[]`, the effect runs exactly
once over any sequence of renders however the props change. -/
theorem creation_effect_once {σ κ : Type} (refs : RefsState σ) (ms : MountState)
    (c : DomContainer) (h : ms.containerEl = some c)
    (p : EditorProps σ κ) (rest : List (EditorProps σ κ)) :
    (creationEffect refs ms).widgetsCreated = [quillNew { theme := some "snow" }] ∧
    (creationEffect refs ms).state.containerEl =
      some { c with children := c.children ++ [DomChild.div] } ∧
    effectRunCount ((p :: rest).map creationEffectDeps) = 1 := by
  obtain ⟨ce, qr, ir⟩ := ms
  cases ce with
  | none => exact Option.noConfusion h
  | some c0 =>
      cases Option.some.inj h
      refine ⟨rfl, rfl, ?_⟩
      simp [effectRunCount, creationEffectDeps, countChanges_creation_deps]

/-- C4 witness: a concrete mount with an empty container and a two-render
sequence. -/
theorem creation_effect_once_witness :
    (creationEffect (⟨0, "Write something...", DefaultValueT.opList [], false⟩ : RefsState Nat)
        ⟨some ⟨"h-full ql-custom", []⟩, none, none⟩).widgetsCreated =
      [quillNew { theme := some "snow" }] ∧
    (creationEffect (⟨0, "Write something...", DefaultValueT.opList [], false⟩ : RefsState Nat)
        ⟨some ⟨"h-full ql-custom", []⟩, none, none⟩).state.containerEl =
      some { className := "h-full ql-custom", children := [] ++ [DomChild.div] } ∧
    effectRunCount
      (([(⟨0, none, "a", DefaultValueT.opList [], false, none, Variant.create⟩ : EditorProps Nat Nat),
         ⟨1, none, "b", DefaultValueT.opList [], true, none, Variant.create⟩]).map
        creationEffectDeps) = 1 :=
  creation_effect_once
    (⟨0, "Write something...", DefaultValueT.opList [], false⟩ : RefsState Nat)
    ⟨some ⟨"h-full ql-custom", []⟩, none, none⟩
    ⟨"h-full ql-custom", []⟩ rfl
    (⟨0, none, "a", DefaultValueT.opList [], false, none, Variant.create⟩ : EditorProps Nat Nat)
    [⟨1, none, "b", DefaultValueT.opList [], true, none, Variant.create⟩]

/-- C5: after any render (preceded by any sequence of earlier renders),
the four latest-value cells hold exactly the props of that render; the
layout effect that writes them has no dependency array, so it runs after
every render, before paint. -/
theorem refs_track_latest_props {σ κ : Type} (ps : List (EditorProps σ κ))
    (p : EditorProps σ κ) (r0 : RefsState σ) :
    (processRenders (ps ++ [p]) r0).submitRef = p.onSubmit ∧
    (processRenders (ps ++ [p]) r0).placeholderRef = p.placeholder ∧
    (processRenders (ps ++ [p]) r0).defaultValueRef = p.defaultValue ∧
    (processRenders (ps ++ [p]) r0).disabledRef = p.disabled := by
  simp [processRenders, List.foldl_append, syncRefs]

/-- C6: the cleanup registered by the mount effect is exactly the
innerHTML-clearing action, and it empties the container's children while
leaving everything else about the element (its class attribute)
untouched. -/
theorem unmount_clears_container {σ : Type} (refs : RefsState σ) (ms : MountState)
    (c : DomContainer) (h : ms.containerEl = some c) (d : DomContainer) :
    (creationEffect refs ms).cleanup = some creationCleanup ∧
    (creationCleanup d).children = [] ∧
    (creationCleanup d).className = d.className := by
  obtain ⟨ce, qr, ir⟩ := ms
  cases ce with
  | none => exact Option.noConfusion h
  | some c0 => exact ⟨rfl, rfl, rfl⟩

/-- C6 witness: a concrete mounted container with one child. -/
theorem unmount_clears_container_witness :
    (creationEffect (⟨0, "Write something...", DefaultValueT.opList [], false⟩ : RefsState Nat)
        ⟨some ⟨"h-full ql-custom", []⟩, none, none⟩).cleanup = some creationCleanup ∧
    (creationCleanup ⟨"h-full ql-custom", [DomChild.div]⟩).children = [] ∧
    (creationCleanup ⟨"h-full ql-custom", [DomChild.div]⟩).className =
      (⟨"h-full ql-custom", [DomChild.div]⟩ : DomContainer).className :=
  unmount_clears_container
    (⟨0, "Write something...", DefaultValueT.opList [], false⟩ : RefsState Nat)
    ⟨some ⟨"h-full ql-custom", []⟩, none, none⟩
    ⟨"h-full ql-custom", []⟩ rfl ⟨"h-full ql-custom", [DomChild.div]⟩

/-- C7: every click sequence over the rendered buttons' handlers leaves
the component state unchanged, invokes no callback, and raises no
error — all rendered handlers are the empty arrow function. -/
theorem clicks_are_inert {σ κ : Type} (p : EditorProps σ κ)
    (hs : List HandlerCode) (s : ComponentState σ)
    (hmem : ∀ h ∈ hs, ∃ b ∈ buttonsOf (render p), b.onClick = h) :
    runClicks hs s = Except.ok (s, []) := by
  induction hs with
  | nil => rfl
  | cons h rest ih =>
      cases h
      have hr := ih (fun g hg => hmem g (List.mem_cons_of_mem _ hg))
      simp [runClicks, runHandler, hr]

/-- C7 witness: two clicks on the create-variant send/emoji handlers. -/
theorem clicks_are_inert_witness :
    runClicks [HandlerCode.inert, HandlerCode.inert]
      (⟨⟨0, "Write something...", DefaultValueT.opList [], false⟩,
        ⟨none, none, none⟩⟩ : ComponentState Nat) =
      Except.ok
        (⟨⟨0, "Write something...", DefaultValueT.opList [], false⟩,
          ⟨none, none, none⟩⟩, []) :=
  clicks_are_inert
    (⟨0, none, "Write something...", DefaultValueT.opList [], false, none,
      Variant.create⟩ : EditorProps Nat Nat)
    [HandlerCode.inert, HandlerCode.inert]
    ⟨⟨0, "Write something...", DefaultValueT.opList [], false⟩, ⟨none, none, none⟩⟩
    (by decide)

/-- C8: every rendered button carries `disabled={false}`, whatever the
value of the `disabled` prop (or any other prop). -/
theorem buttons_never_disabled {σ κ : Type} (p : EditorProps σ κ) :
    ((buttonsOf (render p)).all fun b => !b.disabled) = true := by
  obtain ⟨os, oc, ph, dv, di, ir, v⟩ := p
  cases v <;> rfl

/-- C9: with a null container reference the mount effect returns early:
it creates nothing, issues no widget call, registers no cleanup, throws
no error, and leaves the state untouched. -/
theorem null_container_early_return {σ : Type} (refs : RefsState σ)
    (ms : MountState) (h : ms.containerEl = none) :
    creationEffect refs ms =
      { state := ms, widgetsCreated := [], widgetCalls := []
        cleanup := none, errorsThrown := [] } := by
  obtain ⟨ce, qr, ir⟩ := ms
  cases ce with
  | none => rfl
  | some c0 => exact Option.noConfusion h

/-- C9 witness: the effect run before the container ref is attached. -/
theorem null_container_early_return_witness :
    creationEffect (⟨0, "Write something...", DefaultValueT.opList [], false⟩ : RefsState Nat)
        ⟨none, none, none⟩ =
      { state := ⟨none, none, none⟩, widgetsCreated := [], widgetCalls := []
        cleanup := none, errorsThrown := [] } :=
  null_container_early_return
    (⟨0, "Write something...", DefaultValueT.opList [], false⟩ : RefsState Nat)
    ⟨none, none, none⟩ rfl

/-- C10: two renders with equal `variant` produce identical element
trees, whatever the other props are — the returned JSX references no
prop but `variant`. -/
theorem render_depends_only_on_variant {σ κ : Type} (p q : EditorProps σ κ)
    (h : p.variant = q.variant) : render p = render q := by
  unfold render
  rw [h]

/-- C10 witness: two renders differing in every prop but `variant`. -/
theorem render_depends_only_on_variant_witness :
    render (⟨0, none, "Write something...", DefaultValueT.opList [], false, none,
      Variant.update⟩ : EditorProps Nat Nat) =
    render (⟨7, some 3, "other", DefaultValueT.delta ⟨[Op.insert "x"]⟩, true, some (),
      Variant.update⟩ : EditorProps Nat Nat) :=
  render_depends_only_on_variant _ _ rfl

end Editor
